import Mathlib

/-!
Verification of the markdown code-block extractor (`src/md_decouple.py`,
class `AdvancedMarkdownProcessor`).

The Python class is embedded as a pure state-transition system:

* `RunState` holds the mutable fields of the processor instance
  (`state`, `lines`, `current_file_path`, `current_language`,
  `code_block_start_line`, `stats`, `output_base_dir`, `processed_files`),
  plus an explicit model of the filesystem (`fs`, the files written during
  the run) and a `log` of flush outcomes standing for the logger calls.
* `Config` holds the run-constant configuration (`overwrite`, `dry_run`)
  and a predicate `pre` for the files that already exist on disk before
  the run starts.
* Exceptions raised inside the `try` block of `_flush_code_block` are
  modelled by an oracle `FsBehavior` supplied per flush: the write can
  succeed, or an exception can be raised at the `mkdir` call (before the
  existence check) or at the `open`/`writelines` call.

String primitives used by the source (`startswith`, `strip`, `rindex`,
slicing, `lower`, `len`, `pathlib` suffix handling) are defined over the
character list of the string, matching Python's character-based semantics.
-/

namespace MdDecouple

/-- Python `str.startswith(pat)` (character-based prefix test). -/
def pyStartsWith (s pat : String) : Bool :=
  pat.data.isPrefixOf s.data

/-- Python `len(s)` (number of characters). -/
def strLen (s : String) : Nat :=
  s.data.length

/-- Python slice `s[0:n]` (first `n` characters). -/
def strTake (s : String) (n : Nat) : String :=
  String.mk (s.data.take n)

/-- Python slice `s[n:]` (drop the first `n` characters). -/
def strDrop (s : String) (n : Nat) : String :=
  String.mk (s.data.drop n)

/-- Python `str.strip()`: remove leading and trailing whitespace. -/
def pyStrip (s : String) : String :=
  String.mk (((s.data.dropWhile Char.isWhitespace).reverse.dropWhile Char.isWhitespace).reverse)

/-- Python `str.lower()` (ASCII case folding suffices for the inputs used here). -/
def strLower (s : String) : String :=
  String.mk (s.data.map Char.toLower)

/-- Python `line.replace("*", "")`: with a one-character pattern and empty
replacement this removes every `*` character. -/
def removeStars (line : String) : String :=
  String.mk (line.data.filter (fun c => c ≠ '*'))

/-- Python `s.rindex(pat)`: index of the last occurrence of `pat` in `s`.
The only caller guarantees that `pat` occurs (the line starts with it),
so the `ValueError` case cannot arise; `0` is a dead default. -/
def pyRindex (s pat : String) : Nat :=
  (((List.range (s.data.length + 1)).filter (fun i => pyStartsWith (strDrop s i) pat)).getLastD 0)

/-- A word character for the regexes `\w*` and `[^\w\-_.]` (ASCII reading). -/
def isWordChar (c : Char) : Bool :=
  c.isAlphanum || c = '_'

/-- Components of a path string, split at the separator. -/
def pathComponents (p : String) : List String :=
  (p.data.splitOn '/').map String.mk

/-- `pathlib.PurePath.name`: the final path component. -/
def pathFinalName (p : String) : String :=
  ((pathComponents p).filter (fun c => c ≠ "")).getLastD ""

/-- Index of the last `.` in a string, Python `str.rfind('.')` restricted
to the found case. -/
def lastDotIndex (s : String) : Option Nat :=
  ((List.range s.data.length).filter (fun i => s.data.getD i ' ' = '.')).getLast?

/-- `pathlib.PurePath.suffix`: the extension of the final component; empty
when the last dot is at position 0 or at the end (or there is none). -/
def pathSuffix (p : String) : String :=
  let name := pathFinalName p
  match lastDotIndex name with
  | none => ""
  | some i => if 0 < i ∧ i < name.data.length - 1 then strDrop name i else ""

/-- `pathlib` `base / p`: joining with an absolute right operand discards
the base. -/
def pathJoin (base p : String) : String :=
  if pyStartsWith p "/" then p else base ++ "/" ++ p

/-- Join a list of strings with a separator (for `PurePath.parent`). -/
def strIntercalate (sep : String) : List String → String
  | [] => ""
  | [x] => x
  | x :: xs => x ++ sep ++ strIntercalate sep xs

/-- `pathlib.PurePath.parent`: drop the final component (`.` when there is
only one component). -/
def pathParent (p : String) : String :=
  let parts := pathComponents p
  if parts.length ≤ 1 then "." else strIntercalate "/" parts.dropLast

/-- The three values of `self.state`: `""`, `"frontmatter"`, `"code-block"`. -/
inductive ParseState where
  | normal
  | frontmatter
  | codeBlock
deriving DecidableEq, Repr

/-- The `self.stats` dictionary (md_decouple.py lines 41-46). -/
structure Stats where
  code_blocks : Nat
  files_created : Nat
  headlines : Nat
  errors : Nat
deriving DecidableEq, Repr

/-- One flush outcome, standing for the logger message emitted by the
corresponding branch of `_flush_code_block`. -/
inductive FlushEvent where
  | emptyFlush
  | dryRunOut (path : String)
  | skippedOut (path : String)
  | writtenOut (path : String)
  | failedOut (path : String)
deriving DecidableEq, Repr

/-- Oracle for the `try` block of `_flush_code_block`: the I/O succeeds, or
an exception is raised at `mkdir` (before the existence check) or at the
`open`/`writelines` call. -/
inductive FsBehavior where
  | ok
  | raiseAtMkdir
  | raiseAtWrite
deriving DecidableEq, Repr

/-- Run-constant configuration: constructor arguments `overwrite` and
`dry_run`, plus the set of files existing on disk before the run. -/
structure Config where
  overwrite : Bool
  dry_run : Bool
  pre : String → Bool

/-- The mutable fields of one `AdvancedMarkdownProcessor` instance, with an
explicit filesystem (`fs`: files written during the run, in order) and the
flush-outcome log. -/
structure RunState where
  state : ParseState
  lines : List String
  current_file_path : String
  current_language : String
  code_block_start_line : Nat
  stats : Stats
  output_base_dir : String
  processed_files : Nat
  fs : List (String × String)
  log : List FlushEvent
deriving DecidableEq, Repr

/-- `__init__` (md_decouple.py lines 21-79). -/
def initState (output_base_dir : String) : RunState :=
  { state := ParseState.normal
    lines := []
    current_file_path := ""
    current_language := ""
    code_block_start_line := 0
    stats := { code_blocks := 0, files_created := 0, headlines := 0, errors := 0 }
    output_base_dir := output_base_dir
    processed_files := 0
    fs := []
    log := [] }

/-- `self.language_extensions` (md_decouple.py lines 56-77); `none` models
`lang not in self.language_extensions`. -/
def languageExtensions (lang : String) : Option String :=
  match lang with
  | "python" => some "py"
  | "javascript" => some "js"
  | "typescript" => some "ts"
  | "java" => some "java"
  | "cpp" => some "cpp"
  | "c" => some "c"
  | "html" => some "html"
  | "css" => some "css"
  | "json" => some "json"
  | "xml" => some "xml"
  | "yaml" => some "yml"
  | "yml" => some "yml"
  | "markdown" => some "md"
  | "bash" => some "sh"
  | "shell" => some "sh"
  | "sql" => some "sql"
  | "php" => some "php"
  | "ruby" => some "rb"
  | "go" => some "go"
  | "rust" => some "rs"
  | _ => none

/-- Whether `output_path.exists()` at flush time: the file pre-existed or
was written earlier in this run. -/
def fileExistsAt (cfg : Config) (s : RunState) (path : String) : Bool :=
  cfg.pre path || (s.fs.map Prod.fst).contains path

/-- `_extract_file_path` (md_decouple.py lines 167-172). Returns `none` for
the implicit `return None`; the caller additionally treats `some ""` as
falsy. -/
def extractFilePath (line : String) : Option String :=
  if pyStartsWith line "**" then
    some (removeStars (strTake line (pyRindex line "**")))
  else
    none

/-- The synthesized filename of the label-absent branch of
`_determine_output_path` (md_decouple.py lines 245-254). -/
def generatedFilename (s : RunState) : String :=
  if s.current_language ≠ "" ∧ (languageExtensions s.current_language).isSome then
    "code_block_" ++ Nat.repr (s.stats.code_blocks + 1) ++ "."
      ++ (languageExtensions s.current_language).getD "txt"
  else
    "code_block_" ++ Nat.repr (s.stats.code_blocks + 1) ++ ".txt"

/-- The extension-completion step of `_determine_output_path`
(md_decouple.py lines 256-260): append `.{ext}` when the path has no
suffix and the language is mapped. -/
def withExt (fp lang : String) : String :=
  if pathSuffix fp = "" ∧ (languageExtensions lang).isSome then
    fp ++ "." ++ (languageExtensions lang).getD ""
  else
    fp

/-- `_determine_output_path` (md_decouple.py lines 242-262). Returns the
updated processor state (the synthesized filename is stored into
`current_file_path`) and the resolved output path. -/
def determineOutputPath (s : RunState) : RunState × String :=
  let s1 := if s.current_file_path = "" then { s with current_file_path := generatedFilename s } else s
  (s1, pathJoin s1.output_base_dir (withExt s1.current_file_path s1.current_language))

/-- `_flush_code_block` (md_decouple.py lines 194-240). The branch
`if not output_path` (lines 203-206) is unreachable: in Python a `Path`
object is always truthy, so it is omitted here. -/
def flushCodeBlock (cfg : Config) (b : FsBehavior) (s : RunState) : RunState :=
  if s.lines = [] then
    { s with lines := [], log := s.log ++ [FlushEvent.emptyFlush] }
  else
    let s1 := (determineOutputPath s).1
    let outputPath := (determineOutputPath s).2
    if cfg.dry_run then
      { s1 with
          stats := { s1.stats with code_blocks := s1.stats.code_blocks + 1 }
          lines := []
          log := s1.log ++ [FlushEvent.dryRunOut outputPath] }
    else if b = FsBehavior.raiseAtMkdir then
      { s1 with
          stats := { s1.stats with errors := s1.stats.errors + 1 }
          lines := []
          current_file_path := ""
          current_language := ""
          log := s1.log ++ [FlushEvent.failedOut outputPath] }
    else if fileExistsAt cfg s1 outputPath ∧ ¬ cfg.overwrite then
      { s1 with lines := [], log := s1.log ++ [FlushEvent.skippedOut outputPath] }
    else if b = FsBehavior.raiseAtWrite then
      { s1 with
          stats := { s1.stats with errors := s1.stats.errors + 1 }
          lines := []
          current_file_path := ""
          current_language := ""
          log := s1.log ++ [FlushEvent.failedOut outputPath] }
    else
      { s1 with
          fs := s1.fs ++ [(outputPath, String.join s1.lines)]
          stats := { s1.stats with
                       code_blocks := s1.stats.code_blocks + 1
                       files_created := s1.stats.files_created + 1 }
          lines := []
          current_file_path := ""
          current_language := ""
          log := s1.log ++ [FlushEvent.writtenOut outputPath] }

/-- `_start_code_block` (md_decouple.py lines 175-186). -/
def startCodeBlock (cfg : Config) (b : FsBehavior) (language : String) (lineNum : Nat) (s : RunState) : RunState :=
  let s0 := if s.state = ParseState.codeBlock then flushCodeBlock cfg b s else s
  { s0 with
      state := ParseState.codeBlock
      current_language := strLower language
      code_block_start_line := lineNum
      lines := [] }

/-- `_end_code_block` (md_decouple.py lines 188-192). -/
def endCodeBlock (cfg : Config) (b : FsBehavior) (s : RunState) : RunState :=
  let s0 := if s.state = ParseState.codeBlock then flushCodeBlock cfg b s else s
  { s0 with state := ParseState.normal }

/-- The regex `^(#+)\s+(.+)` of rule 6: on success, the heading level and
the matched text of the second group (the greedy `\s+` backtracks so that
`.+` keeps at least one character). -/
def headlineMatch (line : String) : Option (Nat × String) :=
  let cs := line.data
  let hashes := cs.takeWhile (fun c => c = '#')
  let rest := cs.drop hashes.length
  if 1 ≤ hashes.length ∧ 2 ≤ rest.length ∧ (rest.headD ' ').isWhitespace then
    let ws := rest.takeWhile (fun c => c.isWhitespace)
    some (hashes.length, String.mk (rest.drop (min ws.length (rest.length - 1))))
  else
    none

/-- The slug `re.sub(r'[^\w\-_.]', '_', text.lower())` of `_process_headline`. -/
def safeName (text : String) : String :=
  String.mk ((strLower text).data.map (fun c =>
    if isWordChar c || c = '-' || c = '_' || c = '.' then c else '_'))

/-- `_process_headline` (md_decouple.py lines 264-274). -/
def processHeadline (level : Nat) (text : String) (s : RunState) : RunState :=
  let s0 := { s with stats := { s.stats with headlines := s.stats.headlines + 1 } }
  if level = 1 ∧ s0.current_file_path = "" then
    { s0 with output_base_dir := pathJoin (pathParent s0.output_base_dir) (safeName text) }
  else
    s0

/-- The language group `(\w*)` of the fence-open regex, taken after the
three backticks. -/
def fenceLanguage (line : String) : String :=
  String.mk ((line.data.drop 3).takeWhile isWordChar)

/-- `_process_line` (md_decouple.py lines 117-165). Rules in source order;
the first matching rule consumes the line. Rule 7 (table rows) only logs,
so its branch and the final fall-through both leave the state unchanged. -/
def processLine (cfg : Config) (b : FsBehavior) (s : RunState) (line : String) (lineNum : Nat) : RunState :=
  -- Rule 1: file path declaration (the empty string is falsy in Python)
  if (extractFilePath line).getD "" ≠ "" then
    { s with current_file_path := (extractFilePath line).getD "" }
  -- Rule 2: code block start
  else if pyStartsWith line "```" = true ∧ 3 < strLen line then
    startCodeBlock cfg b (fenceLanguage line) lineNum s
  -- Rule 3: code block end
  else if pyStrip line = "```" then
    endCodeBlock cfg b s
  -- Rule 4: frontmatter delimiter (both entry and exit require line 1)
  else if pyStrip line = "---" ∧ lineNum = 1 then
    if s.state = ParseState.normal then { s with state := ParseState.frontmatter }
    else if s.state = ParseState.frontmatter then { s with state := ParseState.normal }
    else s
  -- Rule 5: capture content inside a code block
  else if s.state = ParseState.codeBlock ∧ pyStartsWith line "`" = false then
    { s with lines := s.lines ++ [line ++ "\n"] }
  -- Rules 6 and 7, and the implicit fall-through
  else
    match headlineMatch line with
    | some lt => if s.state = ParseState.normal then processHeadline lt.1 lt.2 s else s
    | none => s

/-- The per-line loop of `process_markdown_file` (md_decouple.py
lines 100-102), starting at line number `n`; each line carries the
`FsBehavior` oracle for the flush it may trigger. -/
def processLinesFrom (cfg : Config) (s : RunState) (ls : List (String × FsBehavior)) (n : Nat) : RunState :=
  match ls with
  | [] => s
  | (line, b) :: rest => processLinesFrom cfg (processLine cfg b s line n) rest (n + 1)

/-- `process_markdown_file` (md_decouple.py lines 81-115) for an in-memory
document given as its already-newline-stripped lines: process the lines
from line number 1, force a flush if the document ends in code-block
state, and count the processed file. -/
def processMarkdownDoc (cfg : Config) (s : RunState) (docLines : List (String × FsBehavior)) (bEof : FsBehavior) : RunState :=
  let s1 := processLinesFrom cfg s docLines 1
  let s2 := if s1.state = ParseState.codeBlock then flushCodeBlock cfg bEof s1 else s1
  { s2 with processed_files := s2.processed_files + 1 }

/-- A document run in which no I/O call raises. -/
def processDoc (cfg : Config) (s : RunState) (docLines : List String) : RunState :=
  processMarkdownDoc cfg s (docLines.map (fun l => (l, FsBehavior.ok))) FsBehavior.ok

/-- Normal configuration: no overwrite, no dry run, empty disk. -/
def cfgNormal : Config :=
  { overwrite := false, dry_run := false, pre := fun _ => false }

/-- Dry-run configuration. -/
def cfgDry : Config :=
  { overwrite := false, dry_run := true, pre := fun _ => false }

/-- Configuration in which `extracted_files/a.txt` already exists on disk. -/
def cfgSkip : Config :=
  { overwrite := false, dry_run := false, pre := fun p => p == "extracted_files/a.txt" }

end MdDecouple

namespace MdDecouple

/-! ### Helper lemmas about `_determine_output_path` and `_flush_code_block` -/

theorem determine_state (s : RunState) : ((determineOutputPath s).1).state = s.state := by
  simp only [determineOutputPath]
  split <;> rfl

theorem determine_stats (s : RunState) : ((determineOutputPath s).1).stats = s.stats := by
  simp only [determineOutputPath]
  split <;> rfl

theorem determine_lines (s : RunState) : ((determineOutputPath s).1).lines = s.lines := by
  simp only [determineOutputPath]
  split <;> rfl

theorem determine_fs (s : RunState) : ((determineOutputPath s).1).fs = s.fs := by
  simp only [determineOutputPath]
  split <;> rfl

theorem determine_log (s : RunState) : ((determineOutputPath s).1).log = s.log := by
  simp only [determineOutputPath]
  split <;> rfl

theorem flush_state (cfg : Config) (b : FsBehavior) (s : RunState) :
    (flushCodeBlock cfg b s).state = s.state := by
  simp only [flushCodeBlock]
  repeat' split
  all_goals simp [determine_state]

end MdDecouple

namespace MdDecouple

/-! ### Concrete processor states used as instantiation points -/

/-- A processor mid-way through a `python` code block opened at line 1 with
one captured line. -/
def sCB : RunState :=
  { initState "extracted_files" with
      state := ParseState.codeBlock
      current_language := "python"
      code_block_start_line := 1
      lines := ["a\n"] }

/-- A processor inside a frontmatter section. -/
def sFM : RunState :=
  { initState "extracted_files" with state := ParseState.frontmatter }

/-- A processor with the pending label `a.txt` and one captured line. -/
def sLB : RunState :=
  { initState "extracted_files" with
      current_file_path := "a.txt"
      current_language := "python"
      lines := ["x\n"] }

/-! ### Claims C9, C2 -/

/-- Claim C9: after every call to the flush operation, regardless of which
branch is taken (empty content, dry-run, skipped existing file, successful
write, or I/O exception at mkdir or at write), the pending content buffer
`self.lines` is the empty list. -/
theorem c9_lines_reset (cfg : Config) (b : FsBehavior) (s : RunState) :
    (flushCodeBlock cfg b s).lines = [] := by
  simp only [flushCodeBlock]
  repeat' split
  all_goals rfl

/-- Counterexample to claim C2 as stated: flushing an empty pending block
performs no write (the filesystem is unchanged), but the code-blocks-seen
counter is NOT incremented — the empty-content early return of
`_flush_code_block` skips all counter updates. -/
theorem c2_counterexample :
    (flushCodeBlock cfgNormal FsBehavior.ok (initState "extracted_files")).fs
      = (initState "extracted_files").fs
    ∧ (flushCodeBlock cfgNormal FsBehavior.ok (initState "extracted_files")).stats.code_blocks
        ≠ (initState "extracted_files").stats.code_blocks + 1 := by
  decide

/-- Claim C2 (amended): for every flush whose pending block has empty
content, no filesystem write is performed and no counter changes at all;
in particular `stats.code_blocks` is NOT incremented. The flush only logs
the empty outcome. -/
theorem c2_empty_flush_amended (cfg : Config) (b : FsBehavior) (s : RunState)
    (h : s.lines = []) :
    flushCodeBlock cfg b s = { s with lines := [], log := s.log ++ [FlushEvent.emptyFlush] }
    ∧ (flushCodeBlock cfg b s).stats = s.stats
    ∧ (flushCodeBlock cfg b s).fs = s.fs := by
  have he : flushCodeBlock cfg b s = { s with lines := [], log := s.log ++ [FlushEvent.emptyFlush] } := by
    simp only [flushCodeBlock, if_pos h]
  exact ⟨he, by rw [he], by rw [he]⟩

/-- Witness for C2 (amended) at the freshly initialized processor. -/
theorem c2_empty_flush_amended_witness :
    flushCodeBlock cfgNormal FsBehavior.ok (initState "extracted_files")
      = { initState "extracted_files" with
            lines := [], log := (initState "extracted_files").log ++ [FlushEvent.emptyFlush] }
    ∧ (flushCodeBlock cfgNormal FsBehavior.ok (initState "extracted_files")).stats
        = (initState "extracted_files").stats
    ∧ (flushCodeBlock cfgNormal FsBehavior.ok (initState "extracted_files")).fs
        = (initState "extracted_files").fs :=
  c2_empty_flush_amended cfgNormal FsBehavior.ok (initState "extracted_files") rfl

end MdDecouple

namespace MdDecouple

/-! ### Claim C3: label lifecycle -/

/-- Counterexample to claim C3 as stated: in a dry-run, the flush that
consumes the captured label `a.txt` does not clear it, and the later
unlabeled block resolves to the previously captured label — both flushes
report `extracted_files/a.txt`. -/
theorem c3_counterexample :
    (processDoc cfgDry (initState "extracted_files")
        ["**a.txt**", "```python", "x", "```", "```python", "y", "```"]).log
      = [FlushEvent.dryRunOut "extracted_files/a.txt",
         FlushEvent.dryRunOut "extracted_files/a.txt"]
    ∧ (processDoc cfgDry (initState "extracted_files")
        ["**a.txt**", "```python", "x", "```", "```python", "y", "```"]).current_file_path
      = "a.txt" := by
  decide

/-- Claim C3 (amended): the pending label is cleared exactly by the flushes
that reach the I/O attempt (a successful write, or an exception at mkdir
or at write); an empty flush leaves it untouched, and a dry-run or
skipped-existing flush keeps the resolved label (including a synthesized
one), which therefore applies to a later block. -/
theorem c3_label_lifecycle_amended (cfg : Config) (b : FsBehavior) (s : RunState) :
    (flushCodeBlock cfg b s).current_file_path =
      if s.lines = [] then s.current_file_path
      else if cfg.dry_run then ((determineOutputPath s).1).current_file_path
      else if b = FsBehavior.raiseAtMkdir then ""
      else if fileExistsAt cfg (determineOutputPath s).1 (determineOutputPath s).2 ∧ ¬ cfg.overwrite then
        ((determineOutputPath s).1).current_file_path
      else "" := by
  simp only [flushCodeBlock]
  by_cases h1 : s.lines = []
  · simp [h1]
  · simp only [if_neg h1]
    by_cases h2 : cfg.dry_run = true
    · simp [h2]
    · simp only [if_neg h2]
      by_cases h3 : b = FsBehavior.raiseAtMkdir
      · simp [h3]
      · simp only [if_neg h3]
        by_cases h4 : fileExistsAt cfg (determineOutputPath s).1 (determineOutputPath s).2 ∧ ¬ cfg.overwrite
        · simp [h4]
        · simp only [if_neg h4]
          by_cases h5 : b = FsBehavior.raiseAtWrite
          · simp [h5]
          · simp [h5]

/-! ### Claim C4: bold-marker lines inside a code block -/

/-- Counterexample to claim C4 as stated: inside a code block, the line
`**x**` is still consumed by rule 1 — it becomes the pending file-path
label and is not appended to the block's content. -/
theorem c4_counterexample :
    (processLine cfgNormal FsBehavior.ok sCB "**x**" 2).current_file_path = "x"
    ∧ (processLine cfgNormal FsBehavior.ok sCB "**x**" 2).lines = sCB.lines := by
  decide

/-- Claim C4 (amended): a line whose extracted bold label is nonempty is
treated as a file-path label in EVERY state, including CodeBlock — rule 1
is checked before and regardless of the state, so such a line is never
handled by the later rules. -/
theorem c4_label_any_state_amended (cfg : Config) (b : FsBehavior) (s : RunState)
    (line : String) (n : Nat) (h : (extractFilePath line).getD "" ≠ "") :
    processLine cfg b s line n = { s with current_file_path := (extractFilePath line).getD "" } := by
  simp only [processLine, if_pos h]

/-- Witness for C4 (amended): the bold line `**x**` processed in CodeBlock
state sets the label to `x`. -/
theorem c4_label_any_state_amended_witness :
    processLine cfgNormal FsBehavior.ok sCB "**x**" 2
      = { sCB with current_file_path := (extractFilePath "**x**").getD "" } :=
  c4_label_any_state_amended cfgNormal FsBehavior.ok sCB "**x**" 2 (by decide)

end MdDecouple

namespace MdDecouple

/-! ### Claim C5: the skipped-existing branch -/

/-- Counterexample to claim C5 as stated: when the destination exists and
overwrite is disabled, the block is skipped with a warning, but
`stats.code_blocks` is NOT incremented — the skip branch returns before
any counter update. -/
theorem c5_counterexample :
    (processDoc cfgSkip (initState "extracted_files")
        ["**a.txt**", "```python", "x", "```"]).log
      = [FlushEvent.skippedOut "extracted_files/a.txt"]
    ∧ (processDoc cfgSkip (initState "extracted_files")
        ["**a.txt**", "```python", "x", "```"]).stats.code_blocks = 0
    ∧ (processDoc cfgSkip (initState "extracted_files")
        ["**a.txt**", "```python", "x", "```"]).stats.errors = 0 := by
  decide

/-- Claim C5 (amended): in normal (non-dry-run) configuration, when the
destination exists and overwrite is disabled, the flush is skipped with a
warning and performs no write; the error counter is not incremented, and
NO counter is incremented — not even `stats.code_blocks`. -/
theorem c5_skip_amended (cfg : Config) (b : FsBehavior) (s : RunState)
    (h1 : s.lines ≠ []) (h2 : cfg.dry_run = false) (h3 : b ≠ FsBehavior.raiseAtMkdir)
    (h4 : fileExistsAt cfg (determineOutputPath s).1 (determineOutputPath s).2 ∧ ¬ cfg.overwrite) :
    flushCodeBlock cfg b s
      = { (determineOutputPath s).1 with
            lines := [], log := s.log ++ [FlushEvent.skippedOut (determineOutputPath s).2] }
    ∧ (flushCodeBlock cfg b s).stats = s.stats
    ∧ (flushCodeBlock cfg b s).fs = s.fs := by
  have hnd : ¬(cfg.dry_run = true) := by simp [h2]
  have he : flushCodeBlock cfg b s
      = { (determineOutputPath s).1 with
            lines := [], log := s.log ++ [FlushEvent.skippedOut (determineOutputPath s).2] } := by
    simp only [flushCodeBlock, if_neg h1, if_neg hnd, if_neg h3, if_pos h4, determine_log]
  refine ⟨he, ?_, ?_⟩
  · rw [he]
    simpa using determine_stats s
  · rw [he]
    simpa using determine_fs s

/-- Witness for C5 (amended): the labeled block `a.txt` flushed while
`extracted_files/a.txt` already exists on disk. -/
theorem c5_skip_amended_witness :
    flushCodeBlock cfgSkip FsBehavior.ok sLB
      = { (determineOutputPath sLB).1 with
            lines := [], log := sLB.log ++ [FlushEvent.skippedOut (determineOutputPath sLB).2] }
    ∧ (flushCodeBlock cfgSkip FsBehavior.ok sLB).stats = sLB.stats
    ∧ (flushCodeBlock cfgSkip FsBehavior.ok sLB).fs = sLB.fs :=
  c5_skip_amended cfgSkip FsBehavior.ok sLB (by decide) rfl (by decide) (by decide)

/-! ### Claim C7: end-of-input flush versus explicit fence-close -/

/-- Counterexample to claim C7 as stated: a document ending inside a code
block is flushed at end-of-input, but the parse mode stays CodeBlock,
whereas the same document with an explicit fence-close ends in Normal —
the forced flush does not reset `self.state`. -/
theorem c7_counterexample :
    (processDoc cfgDry (initState "extracted_files") ["```python", "x"]).state
      = ParseState.codeBlock
    ∧ (processDoc cfgDry (initState "extracted_files") ["```python", "x", "```"]).state
      = ParseState.normal
    ∧ ParseState.codeBlock ≠ ParseState.normal := by
  decide

/-- Claim C7 (amended): the forced end-of-input flush performs exactly the
flush an explicit fence-close would perform (same pending block disposal,
counters, filesystem effect, and no error), but it leaves the parse mode
at CodeBlock, while the fence-close line additionally resets it to
Normal. -/
theorem c7_eof_flush_amended (cfg : Config) (b : FsBehavior) (s : RunState) (n : Nat)
    (h : s.state = ParseState.codeBlock) :
    processLine cfg b s "```" n = { flushCodeBlock cfg b s with state := ParseState.normal }
    ∧ (flushCodeBlock cfg b s).state = ParseState.codeBlock := by
  constructor
  · simp only [processLine]
    rw [if_neg (by decide : ¬((extractFilePath "```").getD "" ≠ ""))]
    rw [if_neg (by decide : ¬(pyStartsWith "```" "```" = true ∧ 3 < strLen "```"))]
    rw [if_pos (by decide : pyStrip "```" = "```")]
    simp only [endCodeBlock, if_pos h]
  · rw [flush_state]
    exact h

/-- Witness for C7 (amended) at a concrete mid-block processor state. -/
theorem c7_eof_flush_amended_witness :
    processLine cfgNormal FsBehavior.ok sCB "```" 4
      = { flushCodeBlock cfgNormal FsBehavior.ok sCB with state := ParseState.normal }
    ∧ (flushCodeBlock cfgNormal FsBehavior.ok sCB).state = ParseState.codeBlock :=
  c7_eof_flush_amended cfgNormal FsBehavior.ok sCB 4 rfl

/-! ### Claim C8: frontmatter exit -/

/-- Counterexample to claim C8 as stated: after `---` opens frontmatter at
line 1, the `---` at line 3 does NOT exit it — rule 4 requires
`line_num == 1` for the exit as well, so the document ends still in
Frontmatter state. -/
theorem c8_counterexample :
    (processDoc cfgNormal (initState "extracted_files") ["---", "t", "---"]).state
      = ParseState.frontmatter
    ∧ (processDoc cfgNormal (initState "extracted_files") ["---", "t", "---"]).state
      ≠ ParseState.normal := by
  decide

/-- Claim C8 (amended): in Frontmatter state a `---` line transitions back
to Normal only when its line number is 1 (possible only as the first line
of a subsequent document processed by the same instance); a `---` at any
other line number leaves the processor completely unchanged. -/
theorem c8_frontmatter_amended (cfg : Config) (b : FsBehavior) (s : RunState) (n : Nat)
    (h : s.state = ParseState.frontmatter) :
    (n = 1 → processLine cfg b s "---" n = { s with state := ParseState.normal })
    ∧ (n ≠ 1 → processLine cfg b s "---" n = s) := by
  constructor
  · intro hn
    simp only [processLine]
    rw [if_neg (by decide : ¬((extractFilePath "---").getD "" ≠ ""))]
    rw [if_neg (by decide : ¬(pyStartsWith "---" "```" = true ∧ 3 < strLen "---"))]
    rw [if_neg (by decide : ¬(pyStrip "---" = "```"))]
    rw [if_pos (show pyStrip "---" = "---" ∧ n = 1 from ⟨by decide, hn⟩)]
    rw [if_neg (show ¬(s.state = ParseState.normal) by rw [h]; decide)]
    rw [if_pos h]
  · intro hn
    simp only [processLine]
    rw [if_neg (by decide : ¬((extractFilePath "---").getD "" ≠ ""))]
    rw [if_neg (by decide : ¬(pyStartsWith "---" "```" = true ∧ 3 < strLen "---"))]
    rw [if_neg (by decide : ¬(pyStrip "---" = "```"))]
    rw [if_neg (show ¬(pyStrip "---" = "---" ∧ n = 1) from fun hc => hn hc.2)]
    rw [if_neg (show ¬(s.state = ParseState.codeBlock ∧ pyStartsWith "---" "`" = false) by
      rw [h]; exact fun hc => by cases hc.1)]
    rw [show headlineMatch "---" = none from by decide]

/-- Witness for C8 (amended): both conjuncts at a concrete frontmatter
state, with line numbers 1 and 3. -/
theorem c8_frontmatter_amended_witness :
    processLine cfgNormal FsBehavior.ok sFM "---" 1 = { sFM with state := ParseState.normal }
    ∧ processLine cfgNormal FsBehavior.ok sFM "---" 3 = sFM :=
  ⟨(c8_frontmatter_amended cfgNormal FsBehavior.ok sFM 1 rfl).1 rfl,
   (c8_frontmatter_amended cfgNormal FsBehavior.ok sFM 3 rfl).2 (by decide)⟩

end MdDecouple

namespace MdDecouple

/-! ### Branch characterizations of `_flush_code_block` -/

theorem flushDry (cfg : Config) (b : FsBehavior) (s : RunState)
    (h1 : s.lines ≠ []) (h2 : cfg.dry_run = true) :
    flushCodeBlock cfg b s
      = { (determineOutputPath s).1 with
            stats := { s.stats with code_blocks := s.stats.code_blocks + 1 }
            lines := []
            log := s.log ++ [FlushEvent.dryRunOut (determineOutputPath s).2] } := by
  simp only [flushCodeBlock, if_neg h1, if_pos h2, determine_stats, determine_log]

theorem flushWrite (cfg : Config) (b : FsBehavior) (s : RunState)
    (h1 : s.lines ≠ []) (h2 : cfg.dry_run = false) (h3 : b = FsBehavior.ok)
    (h4 : ¬(fileExistsAt cfg (determineOutputPath s).1 (determineOutputPath s).2 ∧ ¬ cfg.overwrite)) :
    flushCodeBlock cfg b s
      = { (determineOutputPath s).1 with
            fs := s.fs ++ [((determineOutputPath s).2, String.join s.lines)]
            stats := { s.stats with
                         code_blocks := s.stats.code_blocks + 1
                         files_created := s.stats.files_created + 1 }
            lines := []
            current_file_path := ""
            current_language := ""
            log := s.log ++ [FlushEvent.writtenOut (determineOutputPath s).2] } := by
  have hnd : ¬(cfg.dry_run = true) := by simp [h2]
  have hnm : ¬(b = FsBehavior.raiseAtMkdir) := by simp [h3]
  have hnw : ¬(b = FsBehavior.raiseAtWrite) := by simp [h3]
  simp only [flushCodeBlock, if_neg h1, if_neg hnd, if_neg hnm, if_neg h4, if_neg hnw,
             determine_fs, determine_lines, determine_stats, determine_log]

/-! ### Claim C6: synthesized naming -/

/-- Counterexample to claim C6 as stated: in a dry-run of two unlabeled
`python` blocks, the synthesized name `code_block_1.py` is used for BOTH
blocks — the dry-run flush keeps the synthesized name in the pending
label, so naming is not strictly increasing and a name is reused. -/
theorem c6_counterexample :
    (processDoc cfgDry (initState "extracted_files")
        ["```python", "x", "```", "```python", "y", "```"]).log
      = [FlushEvent.dryRunOut "extracted_files/code_block_1.py",
         FlushEvent.dryRunOut "extracted_files/code_block_1.py"] := by
  decide

/-- Claim C6 (amended): an unlabeled block is synthesized the name
`code_block_{stats.code_blocks + 1}`; a flush that actually writes
increments the counter and clears the label, so successive successful
writes yield strictly increasing names — but a dry-run flush keeps the
synthesized name as the pending label (with the counter still bumped), so
the next unlabeled block reuses the same name instead of a larger one. -/
theorem c6_naming_amended (cfg : Config) (s : RunState)
    (h1 : s.current_file_path = "") (h2 : s.lines ≠ []) :
    ((determineOutputPath s).1).current_file_path = generatedFilename s
    ∧ (cfg.dry_run = true →
        (flushCodeBlock cfg FsBehavior.ok s).current_file_path = generatedFilename s
        ∧ (flushCodeBlock cfg FsBehavior.ok s).stats.code_blocks = s.stats.code_blocks + 1)
    ∧ (cfg.dry_run = false →
        ¬(fileExistsAt cfg (determineOutputPath s).1 (determineOutputPath s).2 ∧ ¬ cfg.overwrite) →
        (flushCodeBlock cfg FsBehavior.ok s).current_file_path = ""
        ∧ (flushCodeBlock cfg FsBehavior.ok s).stats.code_blocks = s.stats.code_blocks + 1
        ∧ (flushCodeBlock cfg FsBehavior.ok s).log
            = s.log ++ [FlushEvent.writtenOut (determineOutputPath s).2]) := by
  have hdet : ((determineOutputPath s).1).current_file_path = generatedFilename s := by
    simp only [determineOutputPath, if_pos h1]
  refine ⟨hdet, ?_, ?_⟩
  · intro hd
    rw [flushDry cfg FsBehavior.ok s h2 hd]
    exact ⟨hdet, rfl⟩
  · intro hd hne
    rw [flushWrite cfg FsBehavior.ok s h2 hd rfl hne]
    exact ⟨rfl, rfl, rfl⟩

/-- Witness for C6 (amended): the dry-run case at a concrete unlabeled
mid-block state. -/
theorem c6_naming_amended_witness :
    ((determineOutputPath sCB).1).current_file_path = generatedFilename sCB
    ∧ (flushCodeBlock cfgDry FsBehavior.ok sCB).current_file_path = generatedFilename sCB
    ∧ (flushCodeBlock cfgDry FsBehavior.ok sCB).stats.code_blocks = sCB.stats.code_blocks + 1 := by
  have h := c6_naming_amended cfgDry sCB rfl (by decide)
  exact ⟨h.1, (h.2.1 rfl).1, (h.2.1 rfl).2⟩

/-! ### Claim C10: files_created never exceeds code_blocks -/

theorem flush_stats_inv (cfg : Config) (b : FsBehavior) (s : RunState)
    (h : s.stats.files_created ≤ s.stats.code_blocks) :
    (flushCodeBlock cfg b s).stats.files_created ≤ (flushCodeBlock cfg b s).stats.code_blocks := by
  have hds := determine_stats s
  simp only [flushCodeBlock]
  repeat' split
  · exact h
  · show ((determineOutputPath s).1).stats.files_created
        ≤ ((determineOutputPath s).1).stats.code_blocks + 1
    rw [hds]
    omega
  · show ((determineOutputPath s).1).stats.files_created
        ≤ ((determineOutputPath s).1).stats.code_blocks
    rw [hds]
    exact h
  · show ((determineOutputPath s).1).stats.files_created
        ≤ ((determineOutputPath s).1).stats.code_blocks
    rw [hds]
    exact h
  · show ((determineOutputPath s).1).stats.files_created
        ≤ ((determineOutputPath s).1).stats.code_blocks
    rw [hds]
    exact h
  · show ((determineOutputPath s).1).stats.files_created + 1
        ≤ ((determineOutputPath s).1).stats.code_blocks + 1
    rw [hds]
    omega

theorem processLine_stats_inv (cfg : Config) (b : FsBehavior) (s : RunState)
    (line : String) (n : Nat)
    (h : s.stats.files_created ≤ s.stats.code_blocks) :
    (processLine cfg b s line n).stats.files_created
      ≤ (processLine cfg b s line n).stats.code_blocks := by
  simp only [processLine, startCodeBlock, endCodeBlock, processHeadline]
  repeat' split
  all_goals first
    | exact h
    | exact flush_stats_inv cfg b s h

theorem processLinesFrom_stats_inv (cfg : Config) (ls : List (String × FsBehavior)) :
    ∀ (n : Nat) (s : RunState), s.stats.files_created ≤ s.stats.code_blocks →
      (processLinesFrom cfg s ls n).stats.files_created
        ≤ (processLinesFrom cfg s ls n).stats.code_blocks := by
  induction ls with
  | nil => intro n s h; exact h
  | cons p rest ih =>
    intro n s h
    obtain ⟨line, b⟩ := p
    simp only [processLinesFrom]
    exact ih (n + 1) (processLine cfg b s line n) (processLine_stats_inv cfg b s line n h)

theorem processMarkdownDoc_stats_inv (cfg : Config) (s : RunState)
    (doc : List (String × FsBehavior)) (bEof : FsBehavior)
    (h : s.stats.files_created ≤ s.stats.code_blocks) :
    (processMarkdownDoc cfg s doc bEof).stats.files_created
      ≤ (processMarkdownDoc cfg s doc bEof).stats.code_blocks := by
  simp only [processMarkdownDoc]
  split
  · exact flush_stats_inv cfg bEof (processLinesFrom cfg s doc 1)
      (processLinesFrom_stats_inv cfg doc 1 s h)
  · exact processLinesFrom_stats_inv cfg doc 1 s h

/-- Claim C10: the invariant files_created ≤ code_blocks holds initially
and is preserved by every operation — every single line step, every flush
(files_created is only incremented together with code_blocks, while
code_blocks is also incremented alone in dry-run flushes), and every whole
document run. -/
theorem c10_counters_invariant (d : String) (cfg : Config) (b bEof : FsBehavior)
    (s : RunState) (line : String) (n : Nat) (doc : List (String × FsBehavior))
    (h : s.stats.files_created ≤ s.stats.code_blocks) :
    (initState d).stats.files_created ≤ (initState d).stats.code_blocks
    ∧ (flushCodeBlock cfg b s).stats.files_created ≤ (flushCodeBlock cfg b s).stats.code_blocks
    ∧ (processLine cfg b s line n).stats.files_created
        ≤ (processLine cfg b s line n).stats.code_blocks
    ∧ (processMarkdownDoc cfg s doc bEof).stats.files_created
        ≤ (processMarkdownDoc cfg s doc bEof).stats.code_blocks :=
  ⟨Nat.le_refl 0,
   flush_stats_inv cfg b s h,
   processLine_stats_inv cfg b s line n h,
   processMarkdownDoc_stats_inv cfg s doc bEof h⟩

/-- Witness for C10 at a concrete mid-block state and one-line document. -/
theorem c10_counters_invariant_witness :
    (initState "extracted_files").stats.files_created
        ≤ (initState "extracted_files").stats.code_blocks
    ∧ (flushCodeBlock cfgNormal FsBehavior.ok sCB).stats.files_created
        ≤ (flushCodeBlock cfgNormal FsBehavior.ok sCB).stats.code_blocks
    ∧ (processLine cfgNormal FsBehavior.ok sCB "```" 4).stats.files_created
        ≤ (processLine cfgNormal FsBehavior.ok sCB "```" 4).stats.code_blocks
    ∧ (processMarkdownDoc cfgNormal sCB [("```", FsBehavior.ok)] FsBehavior.ok).stats.files_created
        ≤ (processMarkdownDoc cfgNormal sCB [("```", FsBehavior.ok)] FsBehavior.ok).stats.code_blocks :=
  c10_counters_invariant "extracted_files" cfgNormal FsBehavior.ok FsBehavior.ok sCB "```" 4
    [("```", FsBehavior.ok)] (by decide)

end MdDecouple

namespace MdDecouple

/-! ### Claim C1: round-trip fidelity -/

theorem pyStartsWith_three (line : String) (h : pyStartsWith line "`" = false) :
    pyStartsWith line "```" = false := by
  rw [Bool.eq_false_iff] at h ⊢
  intro h3
  apply h
  simp only [pyStartsWith, List.isPrefixOf_iff_prefix] at h3 ⊢
  exact List.IsPrefix.trans (by decide) h3

/-- A line inside a code block that does not begin with a backtick, is not
a nonempty bold label, is not a trimmed fence-close, and is not at line
number 1 is captured by rule 5: it is appended to the pending content
with one newline. -/
theorem captureStep (cfg : Config) (b : FsBehavior) (s : RunState) (line : String) (n : Nat)
    (hst : s.state = ParseState.codeBlock)
    (hb : pyStartsWith line "`" = false)
    (hbold : pyStartsWith line "**" = false)
    (hcl : pyStrip line ≠ "```")
    (hn : n ≠ 1) :
    processLine cfg b s line n = { s with lines := s.lines ++ [line ++ "\n"] } := by
  have hext : extractFilePath line = none := by
    unfold extractFilePath
    rw [if_neg (by simp [hbold])]
  simp only [processLine]
  rw [if_neg (show ¬((extractFilePath line).getD "" ≠ "") by simp [hext])]
  rw [if_neg (show ¬(pyStartsWith line "```" = true ∧ 3 < strLen line) by
        simp [pyStartsWith_three line hb])]
  rw [if_neg hcl]
  rw [if_neg (show ¬(pyStrip line = "---" ∧ n = 1) from fun hc => hn hc.2)]
  rw [if_pos (show s.state = ParseState.codeBlock ∧ pyStartsWith line "`" = false from ⟨hst, hb⟩)]

theorem processLinesFrom_append (cfg : Config) (xs ys : List (String × FsBehavior)) :
    ∀ (n : Nat) (s : RunState),
      processLinesFrom cfg s (xs ++ ys) n
        = processLinesFrom cfg (processLinesFrom cfg s xs n) ys (n + xs.length) := by
  induction xs with
  | nil => intro n s; simp [processLinesFrom]
  | cons p rest ih =>
    intro n s
    obtain ⟨line, b⟩ := p
    simp only [List.cons_append, processLinesFrom, List.length_cons, List.append_eq]
    rw [ih (n + 1)]
    congr 1
    omega

/-- Processing a run of capturable lines inside a code block appends each
of them, with one newline each, to the pending content. -/
theorem captureRun (cfg : Config) :
    ∀ (L : List String),
      (∀ l ∈ L, pyStartsWith l "`" = false ∧ pyStartsWith l "**" = false ∧ pyStrip l ≠ "```") →
      ∀ (n : Nat), 2 ≤ n → ∀ (s : RunState), s.state = ParseState.codeBlock →
        processLinesFrom cfg s (L.map (fun l => (l, FsBehavior.ok))) n
          = { s with lines := s.lines ++ L.map (fun l => l ++ "\n") } := by
  intro L
  induction L with
  | nil =>
    intro _ n _ s _
    simp [processLinesFrom]
  | cons l rest ih =>
    intro h n hn s hs
    simp only [List.map_cons, processLinesFrom]
    obtain ⟨h1, h2, h3⟩ := h l (List.mem_cons_self l rest)
    rw [captureStep cfg FsBehavior.ok s l n hs h1 h2 h3 (by omega)]
    rw [ih (fun x hx => h x (List.mem_cons_of_mem l hx)) (n + 1) (by omega)
          { s with lines := s.lines ++ [l ++ "\n"] } hs]
    simp [List.append_assoc]

/-- The processor state right after the fence-open `"```python"` is
processed at line 1 from a fresh run. -/
def sOpen : RunState :=
  { initState "extracted_files" with
      state := ParseState.codeBlock
      current_language := "python"
      code_block_start_line := 1 }

/-- Closing an unlabeled `python` block with pending content `X` in normal
configuration writes `extracted_files/code_block_1.py` whose bytes are the
concatenation of the captured lines. -/
theorem determine_snd_lines (s : RunState) (X : List String) :
    (determineOutputPath { s with lines := X }).2 = (determineOutputPath s).2 := by
  simp only [determineOutputPath, generatedFilename]
  split <;> rfl

theorem closeFlush (X : List String) (hX : X ≠ []) (m : Nat) :
    processLine cfgNormal FsBehavior.ok { sOpen with lines := X } "```" m
      = { sOpen with
            state := ParseState.normal
            lines := []
            current_file_path := ""
            current_language := ""
            stats := { code_blocks := 1, files_created := 1, headlines := 0, errors := 0 }
            fs := [("extracted_files/code_block_1.py", String.join X)]
            log := [FlushEvent.writtenOut "extracted_files/code_block_1.py"] } := by
  have hs : ({ sOpen with lines := X } : RunState).state = ParseState.codeBlock := rfl
  simp only [processLine]
  rw [if_neg (by decide : ¬((extractFilePath "```").getD "" ≠ ""))]
  rw [if_neg (by decide : ¬(pyStartsWith "```" "```" = true ∧ 3 < strLen "```"))]
  rw [if_pos (by decide : pyStrip "```" = "```")]
  simp only [endCodeBlock, if_pos hs]
  have hfe : fileExistsAt cfgNormal
      (determineOutputPath { sOpen with lines := X }).1
      (determineOutputPath { sOpen with lines := X }).2 = false := rfl
  have hd2 : (determineOutputPath { sOpen with lines := X }).2
      = "extracted_files/code_block_1.py" := by
    rw [determine_snd_lines]
    decide
  rw [flushWrite cfgNormal FsBehavior.ok { sOpen with lines := X } hX rfl rfl
        (by
          intro hc
          rw [hfe] at hc
          exact absurd hc.1 (by decide))]
  rw [hd2]
  rfl

/-- Counterexample to claim C1 as stated: a block whose source content is
the two lines `a` and `` `b `` produces a file containing only `a\n` —
the content line beginning with a backtick is NOT captured (rule 5
explicitly excludes it), so the written bytes differ from the block's
full source content `a\n`b\n`. -/
theorem c1_counterexample :
    (processDoc cfgNormal (initState "extracted_files") ["```python", "a", "`b", "```"]).fs
      = [("extracted_files/code_block_1.py", "a\n")]
    ∧ ("a\n" : String) ≠ "a\n`b\n" := by
  decide

/-- Claim C1 (amended): for every code block whose content lines are
captured between the fence-open and its flush, the bytes written equal
exactly the captured content, one trailing newline per captured line —
where a content line is captured iff it does not begin with a backtick
and is not consumed as a bold file-path label (and is not a trimmed
fence marker). -/
theorem c1_round_trip_amended (L : List String) (hne : L ≠ [])
    (h : ∀ l ∈ L, pyStartsWith l "`" = false ∧ pyStartsWith l "**" = false ∧ pyStrip l ≠ "```") :
    (processDoc cfgNormal (initState "extracted_files") ("```python" :: (L ++ ["```"]))).fs
      = [("extracted_files/code_block_1.py", String.join (L.map (fun l => l ++ "\n")))] := by
  simp only [processDoc, processMarkdownDoc, List.map_cons, List.map_append, List.map_nil,
             processLinesFrom]
  rw [show processLine cfgNormal FsBehavior.ok (initState "extracted_files") "```python" 1 = sOpen
        from by decide]
  rw [processLinesFrom_append cfgNormal (L.map (fun l => (l, FsBehavior.ok)))
        [("```", FsBehavior.ok)] 2 sOpen]
  rw [captureRun cfgNormal L h 2 (by omega) sOpen rfl]
  rw [show sOpen.lines = ([] : List String) from rfl]
  rw [List.nil_append]
  simp only [processLinesFrom]
  rw [closeFlush (L.map (fun l => l ++ "\n")) (by simpa using hne)
        (2 + (L.map (fun l => (l, FsBehavior.ok))).length)]
  rfl

/-- Witness for C1 (amended): the one-line block `print` round-trips to
`extracted_files/code_block_1.py` containing `print\n`. -/
theorem c1_round_trip_amended_witness :
    (processDoc cfgNormal (initState "extracted_files") ["```python", "print", "```"]).fs
      = [("extracted_files/code_block_1.py", "print\n")] := by
  have h := c1_round_trip_amended ["print"] (by decide) (by decide)
  exact h.trans (by rfl)

end MdDecouple
